import Mathlib

/-!
Shallow embedding of the webapp REST service (users, products, product
images, health check) for checking its specification.

Conventions of the embedding:
* Timestamps are `Int` milliseconds (the value of `Date.getTime()`).
* The relational database tables are Lean lists of records; a Sequelize
  `findOne`/`findByPk` is `List.find?`, `create` appends, `save` maps a
  primary-key–guarded update over the table, `destroy` removes the row.
* External collaborators that live outside the repository (the request
  validators in `utils/validation.js`, the bcrypt hash, the uuid
  generator, the SNS publisher, the S3 client) are passed to the handlers
  as explicit function parameters, mirroring the call sites in the source.
* JavaScript truthiness of the string-or-missing request fields is
  `jsTruthy : Option String → Bool` (missing and `""` are falsy).
-/

namespace Webapp

/-- JSON values as produced by the handlers' `res.json` bodies. -/
inductive JsVal where
  | str : String → JsVal
  | num : Int → JsVal
  | bool : Bool → JsVal
  | null : JsVal
  | arr : List JsVal → JsVal

/-- Truthiness of an optional string request field: JavaScript `!x` is
true exactly when the field is absent or the empty string. -/
def jsTruthy : Option String → Bool
  | none => false
  | some s => !s.isEmpty

/-- A row of the `users` table (src/models/User.js). -/
structure UserRec where
  id : String
  first_name : String
  last_name : String
  password : String
  username : String
  account_created : Int
  account_updated : Int
  email_verified : Bool
  verification_token : Option String
  verification_token_expiry : Option Int
deriving Repr, DecidableEq

/-- Sequelize `User.findOne({ where: { username } })`. -/
def findByUsername (db : List UserRec) (username : String) : Option UserRec :=
  db.find? (fun u => u.username == username)

/-- Sequelize `User.findByPk(userId)`. -/
def findUserByPk (db : List UserRec) (uid : String) : Option UserRec :=
  db.find? (fun u => u.id == uid)

/-- The attribute map of a user instance, `this.get()` in
`User.prototype.toJSON` (src/models/User.js): every column of the model. -/
def userGet (u : UserRec) : List (String × JsVal) :=
  [("id", JsVal.str u.id),
   ("first_name", JsVal.str u.first_name),
   ("last_name", JsVal.str u.last_name),
   ("password", JsVal.str u.password),
   ("username", JsVal.str u.username),
   ("account_created", JsVal.num u.account_created),
   ("account_updated", JsVal.num u.account_updated),
   ("email_verified", JsVal.bool u.email_verified),
   ("verification_token",
     match u.verification_token with
     | none => JsVal.null
     | some t => JsVal.str t),
   ("verification_token_expiry",
     match u.verification_token_expiry with
     | none => JsVal.null
     | some e => JsVal.num e)]

/-- `User.prototype.toJSON`: copy of the attribute map with the
`password`, `verification_token` and `verification_token_expiry` keys
deleted (src/models/User.js lines 85-91). -/
def userToJSON (u : UserRec) : List (String × JsVal) :=
  (userGet u).filter (fun kv =>
    !(kv.1 == "password" || kv.1 == "verification_token"
      || kv.1 == "verification_token_expiry"))

/-- The `beforeUpdate` hook plus the mutation performed by the verify
handler on a save: mark the row with primary key `uid` verified, clear
both token fields, refresh `account_updated`. -/
def markVerified (uid : String) (now : Int) (u : UserRec) : UserRec :=
  if u.id == uid then
    { u with email_verified := true,
             verification_token := none,
             verification_token_expiry := none,
             account_updated := now }
  else u

/-- GET /v1/user/verify (src/routes/user.js lines 106-183).
Result is (status, response message, users table after the call).
The JavaScript comparison `now > user.verification_token_expiry`
coerces a null expiry to 0, embedded here with `Option.getD 0`. -/
def verifyEmail (db : List UserRec) (now : Int)
    (email token : Option String) : Nat × String × List UserRec :=
  if !(jsTruthy email && jsTruthy token) then
    (400, "Email and token are required", db)
  else
    match findByUsername db (email.getD "") with
    | none => (404, "User not found", db)
    | some u =>
      if u.email_verified then
        (200, "Email already verified", db)
      else if u.verification_token != token then
        (400, "Invalid verification token", db)
      else if now > (u.verification_token_expiry.getD 0) then
        (400, "Verification token has expired", db)
      else
        (200, "Email verified successfully", db.map (markVerified u.id now))

/-- The fields of a POST /v1/user request body after a passing
`validateUserCreate` (the validator itself lives in utils/validation.js
and is a parameter of the handler). -/
structure UserCreateBody where
  first_name : String
  last_name : String
  password : String
  username : String
deriving Repr, DecidableEq

/-- The payload published to SNS by `publishUserRegistration`
(src/utils/sns.js). -/
structure SnsMsg where
  email : String
  firstName : String
  lastName : String
  token : String
deriving Repr, DecidableEq

/-- The user row inserted by the POST /v1/user handler: verification
token freshly generated, expiry `now + 60s`, `email_verified` false; the
password column stores the bcrypt hash (the model's setter). -/
def newUserRec (hashFn : String → String) (genId genTok : String)
    (now : Int) (body : UserCreateBody) : UserRec :=
  { id := genId,
    first_name := body.first_name,
    last_name := body.last_name,
    password := hashFn body.password,
    username := body.username,
    account_created := now,
    account_updated := now,
    email_verified := false,
    verification_token := some genTok,
    verification_token_expiry := some (now + 60 * 1000) }

/-- POST /v1/user (src/routes/user.js lines 18-103). `validate` is
`validateUserCreate`, `snsPub` the SNS publish call; a publish failure is
caught and only logged, so both branches of the final match answer 201.
Result is (status, response body, users table after the call). -/
def postUser (validate : UserCreateBody → List String)
    (hashFn : String → String) (genId genTok : String) (now : Int)
    (snsPub : SnsMsg → Except String Unit)
    (db : List UserRec) (body : UserCreateBody) :
    Nat × Option (List (String × JsVal)) × List UserRec :=
  if !(validate body).isEmpty then
    (400, some [("errors", JsVal.arr ((validate body).map JsVal.str))], db)
  else
    match findByUsername db body.username with
    | some _ =>
      (400, some [("error", JsVal.str "User with this email already exists")], db)
    | none =>
      let u := newUserRec hashFn genId genTok now body
      let db1 := db ++ [u]
      match snsPub { email := body.username, firstName := body.first_name,
                     lastName := body.last_name, token := genTok } with
      | Except.ok _ => (201, some (userToJSON u), db1)
      | Except.error _ => (201, some (userToJSON u), db1)

/-- The `isValidUUID` helper (src/routes/user.js lines 12-15): the
anchored case-insensitive regex for the 8-4-4-4-12 hexadecimal shape,
expressed through the dash-separated groups of the string. -/
def isHexDigit (c : Char) : Bool :=
  (('0' ≤ c) && (c ≤ '9')) || (('a' ≤ c) && (c ≤ 'f'))
    || (('A' ≤ c) && (c ≤ 'F'))

/-- Split a character list at every dash, keeping empty groups, so that
the original string matches the UUID regex exactly when the groups have
the hexadecimal 8-4-4-4-12 shape. -/
def splitDash : List Char → List (List Char)
  | [] => [[]]
  | c :: cs =>
    let r := splitDash cs
    if c = '-' then [] :: r
    else
      match r with
      | [] => [[c]]
      | g :: gs => (c :: g) :: gs

/-- Matches the regex of `isValidUUID` exactly: five dash-separated
groups of hex digits with lengths 8, 4, 4, 4, 12. -/
def isValidUUID (s : String) : Bool :=
  match splitDash s.toList with
  | [a, b, c, d, e] =>
    a.length == 8 && b.length == 4 && c.length == 4 && d.length == 4
      && e.length == 12
      && a.all isHexDigit && b.all isHexDigit && c.all isHexDigit
      && d.all isHexDigit && e.all isHexDigit
  | _ => false

/-- GET /v1/user/self (src/routes/user.js lines 186-205): returns the
authenticated user's serialized representation. -/
def getUserSelf (actor : UserRec) : Nat × List (String × JsVal) :=
  (200, userToJSON actor)

/-- GET /v1/user/:userId (src/routes/user.js lines 208-259). The second
component counts the database calls performed; the third is the response
body (`res.json(req.user)`) when the request succeeds. -/
def getUserById (db : List UserRec) (actor : UserRec) (uid : String) :
    Nat × Nat × Option (List (String × JsVal)) :=
  if !isValidUUID uid then (400, 0, none)
  else
    match findUserByPk db uid with
    | none => (404, 1, none)
    | some _ =>
      if actor.id != uid then (403, 1, none)
      else (200, 1, some (userToJSON actor))

/-- The fields of a PUT /v1/user/:userId request body; each may be
absent, and the handler checks their JavaScript truthiness itself. -/
structure UserUpdateBody where
  first_name : Option String
  last_name : Option String
  password : Option String
deriving Repr, DecidableEq

/-- The row update performed by PUT /v1/user/:userId on a save: the three
profile fields are written (password through the hashing setter) and the
`beforeUpdate` hook refreshes `account_updated`. -/
def applyUserUpdate (hashFn : String → String) (uid : String) (now : Int)
    (body : UserUpdateBody) (u : UserRec) : UserRec :=
  if u.id == uid then
    { u with first_name := body.first_name.getD "",
             last_name := body.last_name.getD "",
             password := hashFn (body.password.getD ""),
             account_updated := now }
  else u

/-- PUT /v1/user/:userId (src/routes/user.js lines 262-342). `validate`
is `validateUserUpdate`. Result is (status, users table after the call,
number of database calls performed). -/
def putUser (validate : UserUpdateBody → List String)
    (hashFn : String → String) (now : Int)
    (db : List UserRec) (actorId uid : String) (body : UserUpdateBody) :
    Nat × List UserRec × Nat :=
  if !isValidUUID uid then (400, db, 0)
  else
    match findUserByPk db uid with
    | none => (404, db, 1)
    | some _ =>
      if actorId != uid then (403, db, 1)
      else if !(validate body).isEmpty then (400, db, 1)
      else if !(jsTruthy body.first_name && jsTruthy body.last_name
                && jsTruthy body.password) then (400, db, 1)
      else (204, db.map (applyUserUpdate hashFn uid now body), 2)

/-- A row of the products table (src/models/Product.js; the handlers in
src/routes/product.js read exactly these columns). -/
structure ProductRec where
  id : String
  name : String
  description : String
  sku : String
  manufacturer : String
  quantity : Int
  owner_user_id : String
deriving Repr, DecidableEq

/-- Sequelize `Product.findByPk(productId)`. -/
def productByPk (db : List ProductRec) (pid : String) : Option ProductRec :=
  db.find? (fun p => p.id == pid)

/-- Sequelize `product.destroy()`: remove the row found by primary key. -/
def removeProduct (db : List ProductRec) (pid : String) : List ProductRec :=
  match db with
  | [] => []
  | p :: rest =>
    if p.id == pid then rest else p :: removeProduct rest pid

/-- GET /v1/product/:productId (src/routes/product.js lines 80-119).
Result is (status, response body). -/
def getProduct (db : List ProductRec) (actorId pid : String) :
    Nat × Option ProductRec :=
  match productByPk db pid with
  | none => (404, none)
  | some p =>
    if p.owner_user_id != actorId then (403, none)
    else (200, some p)

/-- The fields of a PUT /v1/product/:productId body after validation. -/
structure ProductPutBody where
  name : String
  description : String
  sku : String
  manufacturer : String
  quantity : Int
deriving Repr, DecidableEq

/-- The row update performed by PUT /v1/product/:productId on a save:
all five descriptive fields replaced. -/
def applyProductPut (pid : String) (body : ProductPutBody)
    (p : ProductRec) : ProductRec :=
  if p.id == pid then
    { p with name := body.name, description := body.description,
             sku := body.sku, manufacturer := body.manufacturer,
             quantity := body.quantity }
  else p

/-- PUT /v1/product/:productId (src/routes/product.js lines 122-181).
`validate` is `validateProductUpdate`. Result is (status, products table
after the call). -/
def putProduct (validate : ProductPutBody → List String)
    (db : List ProductRec) (actorId pid : String) (body : ProductPutBody) :
    Nat × List ProductRec :=
  match productByPk db pid with
  | none => (404, db)
  | some p =>
    if p.owner_user_id != actorId then (403, db)
    else if !(validate body).isEmpty then (400, db)
    else (204, db.map (applyProductPut pid body))

/-- The fields of a PATCH /v1/product/:productId body; a present key of
the JSON object is `some`, an absent key `none`. -/
structure ProductPatchBody where
  name : Option String
  description : Option String
  sku : Option String
  manufacturer : Option String
  quantity : Option Int
deriving Repr, DecidableEq

/-- Whether the patch body carries at least one recognized field
(`allowedFields.some(field => req.body.hasOwnProperty(field))`). -/
def patchHasField (body : ProductPatchBody) : Bool :=
  body.name.isSome || body.description.isSome || body.sku.isSome
    || body.manufacturer.isSome || body.quantity.isSome

/-- The row update performed by PATCH: each present field overwrites the
corresponding column, absent fields are kept. -/
def applyProductPatch (pid : String) (body : ProductPatchBody)
    (p : ProductRec) : ProductRec :=
  if p.id == pid then
    { p with name := body.name.getD p.name,
             description := body.description.getD p.description,
             sku := body.sku.getD p.sku,
             manufacturer := body.manufacturer.getD p.manufacturer,
             quantity := body.quantity.getD p.quantity }
  else p

/-- PATCH /v1/product/:productId (src/routes/product.js lines 184-256).
`validate` is `validateProductPatch`. -/
def patchProduct (validate : ProductPatchBody → List String)
    (db : List ProductRec) (actorId pid : String) (body : ProductPatchBody) :
    Nat × List ProductRec :=
  match productByPk db pid with
  | none => (404, db)
  | some p =>
    if p.owner_user_id != actorId then (403, db)
    else if !(validate body).isEmpty then (400, db)
    else if !patchHasField body then (400, db)
    else (204, db.map (applyProductPatch pid body))

/-- DELETE /v1/product/:productId (src/routes/product.js lines 259-302). -/
def deleteProduct (db : List ProductRec) (actorId pid : String) :
    Nat × List ProductRec :=
  match productByPk db pid with
  | none => (404, db)
  | some p =>
    if p.owner_user_id != actorId then (403, db)
    else (204, removeProduct db pid)

/-- A row of the Images table (src/models/Image.js). -/
structure ImageRec where
  image_id : String
  product_id : String
  file_name : String
  s3_bucket_path : String
  date_created : Int
deriving Repr, DecidableEq

/-- The combined existence-and-ownership lookup of the image handlers:
`Product.findOne({ where: { id: productId, owner_user_id: userId } })`
(src/routes/image.js). -/
def findOwnedProduct (db : List ProductRec) (pid actorId : String) :
    Option ProductRec :=
  db.find? (fun p => p.id == pid && p.owner_user_id == actorId)

/-- Sequelize `Image.findOne({ where: { image_id, product_id } })`. -/
def findImage (db : List ImageRec) (iid pid : String) : Option ImageRec :=
  db.find? (fun i => i.image_id == iid && i.product_id == pid)

/-- Sequelize `image.destroy()`: remove the row the handler found. -/
def removeImage (db : List ImageRec) (iid pid : String) : List ImageRec :=
  match db with
  | [] => []
  | i :: rest =>
    if i.image_id == iid && i.product_id == pid then rest
    else i :: removeImage rest iid pid

/-- POST /v1/product/:productId/image (src/routes/image.js): `hasFile`
is whether multer attached `req.file`; `s3up` is the `uploadImageToS3`
call, answering the generated (fileName, s3Path) or throwing; a throw is
caught and answered with 500. Result is (status, images table after the
call). -/
def postImage (s3up : Except String (String × String)) (genId : String)
    (now : Int) (pdb : List ProductRec) (idb : List ImageRec)
    (actorId pid : String) (hasFile : Bool) : Nat × List ImageRec :=
  if !hasFile then (400, idb)
  else
    match findOwnedProduct pdb pid actorId with
    | none => (403, idb)
    | some _ =>
      match s3up with
      | Except.error _ => (500, idb)
      | Except.ok (fn, path) =>
        (201, idb ++ [{ image_id := genId, product_id := pid,
                        file_name := fn, s3_bucket_path := path,
                        date_created := now }])

/-- GET /v1/product/:productId/image (src/routes/image.js): list all
images of an owned product. Result is (status, response body). -/
def getImages (pdb : List ProductRec) (idb : List ImageRec)
    (actorId pid : String) : Nat × Option (List ImageRec) :=
  match findOwnedProduct pdb pid actorId with
  | none => (403, none)
  | some _ => (200, some (idb.filter (fun i => i.product_id == pid)))

/-- GET /v1/product/:productId/image/:imageId (src/routes/image.js). -/
def getImage (pdb : List ProductRec) (idb : List ImageRec)
    (actorId pid iid : String) : Nat × Option ImageRec :=
  match findOwnedProduct pdb pid actorId with
  | none => (403, none)
  | some _ =>
    match findImage idb iid pid with
    | none => (404, none)
    | some i => (200, some i)

/-- DELETE /v1/product/:productId/image/:imageId (src/routes/image.js):
the S3 delete runs first and a throw is caught and answered with 500
before `image.destroy()` is reached; only a successful storage delete is
followed by the metadata delete. Result is (status, images table after
the call). -/
def deleteImage (s3del : String → Except String Unit)
    (pdb : List ProductRec) (idb : List ImageRec)
    (actorId pid iid : String) : Nat × List ImageRec :=
  match findOwnedProduct pdb pid actorId with
  | none => (403, idb)
  | some _ =>
    match findImage idb iid pid with
    | none => (404, idb)
    | some img =>
      match s3del img.s3_bucket_path with
      | Except.error _ => (500, idb)
      | Except.ok _ => (204, removeImage idb iid pid)

/-- HTTP methods that can reach the /healthz router (HEAD is excluded:
the framework folds it into the GET route). -/
inductive HttpMethod where
  | get | post | put | patch | delete | options
deriving Repr, DecidableEq

/-- A /healthz response: status, whether the no-cache header set was
attached, whether the body is empty (every branch ends with `.end()`). -/
structure HealthzResp where
  status : Nat
  noCacheHeaders : Bool
  bodyEmpty : Bool
deriving Repr, DecidableEq

/-- The /healthz router (src/routes/healthz.js): `router.get` handles GET
(payload → 400; insert succeeds → 200; insert throws → 503) and
`router.all` answers 405 to every other method. `hasPayload` is whether
`req.body` has any keys; `dbOk` is whether `HealthCheck.create`
succeeds. -/
def healthzRoute (m : HttpMethod) (hasPayload dbOk : Bool) : HealthzResp :=
  match m with
  | HttpMethod.get =>
    if hasPayload then { status := 400, noCacheHeaders := true, bodyEmpty := true }
    else if dbOk then { status := 200, noCacheHeaders := true, bodyEmpty := true }
    else { status := 503, noCacheHeaders := true, bodyEmpty := true }
  | _ => { status := 405, noCacheHeaders := true, bodyEmpty := true }

/-- The invariant of claim C5 on a user row: a verified row holds no
token, and the token and expiry columns are null together. -/
def userInv (u : UserRec) : Prop :=
  (u.email_verified = true → u.verification_token = none)
    ∧ (u.verification_token = none ↔ u.verification_token_expiry = none)

instance (u : UserRec) : Decidable (userInv u) := by
  unfold userInv; infer_instance

/-! Concrete fixtures used to evaluate the theorems on closed inputs. -/

/-- A sample product owned by `user-1`. -/
def exProduct : ProductRec :=
  { id := "prod-1", name := "Widget", description := "A widget",
    sku := "SKU-1", manufacturer := "Acme", quantity := 5,
    owner_user_id := "user-1" }

/-- A sample unverified user with a pending verification token. -/
def exUser : UserRec :=
  { id := "user-1", first_name := "Ada", last_name := "Love",
    password := "hashed", username := "ada@example.com",
    account_created := 0, account_updated := 0,
    email_verified := false, verification_token := some "tok-1",
    verification_token_expiry := some 60000 }

/-- A sample user that is already verified. -/
def exVerifiedUser : UserRec :=
  { id := "user-2", first_name := "Bob", last_name := "Law",
    password := "hashed", username := "bob@example.com",
    account_created := 0, account_updated := 0,
    email_verified := true, verification_token := none,
    verification_token_expiry := none }

/-- A sample image attached to `exProduct`. -/
def exImage : ImageRec :=
  { image_id := "img-1", product_id := "prod-1", file_name := "a.png",
    s3_bucket_path := "user-1/prod-1/a.png", date_created := 0 }

/-- A sample registration body. -/
def exCreateBody : UserCreateBody :=
  { first_name := "Ada", last_name := "Love", password := "pw",
    username := "new@example.com" }

/-- A validator that accepts everything, standing in for a concrete run
of the external validators on a well-formed body. -/
def noErrs {α : Type} : α → List String := fun _ => []

/-! Theorems settling the claims. -/

/-- C3: on an unverified identity whose stored token equals the presented
token (and whose expiry is set), the expiry comparison of GET
/v1/user/verify is strictly greater-than: `now > expiry` answers 400
TokenExpired with the users table unchanged, while `now ≤ expiry` —
including the exact expiry instant — answers 200 and transitions the
identity to verified. -/
theorem c3_verify_expiry_strict (db : List UserRec) (now exp : Int)
    (e t : String) (u : UserRec)
    (he : e ≠ "") (ht : t ≠ "")
    (hfind : findByUsername db e = some u)
    (hunv : u.email_verified = false)
    (htok : u.verification_token = some t)
    (hexp : u.verification_token_expiry = some exp) :
    (now > exp → verifyEmail db now (some e) (some t)
        = (400, "Verification token has expired", db))
    ∧ (now ≤ exp →
        verifyEmail db now (some e) (some t)
          = (200, "Email verified successfully", db.map (markVerified u.id now))
        ∧ ∀ v ∈ db.map (markVerified u.id now),
            v.id = u.id → v.email_verified = true) := by
  have hte : e.isEmpty = false := by
    rw [Bool.eq_false_iff]
    simpa [String.isEmpty_iff] using he
  have htt : t.isEmpty = false := by
    rw [Bool.eq_false_iff]
    simpa [String.isEmpty_iff] using ht
  have htr : (jsTruthy (some e) && jsTruthy (some t)) = true := by
    simp [jsTruthy, hte, htt]
  constructor
  · intro hgt
    simp [verifyEmail, htr, hfind, hunv, htok, hexp, hgt]
  · intro hle
    constructor
    · simp [verifyEmail, htr, hfind, hunv, htok, hexp, not_lt.mpr hle]
    · intro v hv hid
      rcases List.mem_map.mp hv with ⟨w, hw, rfl⟩
      unfold markVerified at *
      by_cases hwid : w.id = u.id
      · simp [hwid]
      · simp [hwid] at hid ⊢

/-- Witness for C3: the sample user's token expires at 60000; a check at
70000 fails with TokenExpired and changes nothing. -/
theorem c3_verify_expiry_strict_witness :
    verifyEmail [exUser] 70000 (some "ada@example.com") (some "tok-1")
      = (400, "Verification token has expired", [exUser]) :=
  (c3_verify_expiry_strict [exUser] 70000 60000 "ada@example.com" "tok-1"
    exUser (by decide) (by decide) (by decide) (by decide) (by decide)
    (by decide)).1 (by decide)

/-- C4: a verification check on an identity that is already verified
answers 200 with no state change for any (nonempty) presented token,
the already-verified branch being evaluated before token comparison,
and repeating the check gives the same answer. -/
theorem c4_verify_already_verified (db : List UserRec) (now : Int)
    (e t : String) (u : UserRec)
    (he : e ≠ "") (ht : t ≠ "")
    (hfind : findByUsername db e = some u)
    (hver : u.email_verified = true) :
    verifyEmail db now (some e) (some t) = (200, "Email already verified", db)
    ∧ verifyEmail (verifyEmail db now (some e) (some t)).2.2 now
        (some e) (some t)
      = verifyEmail db now (some e) (some t) := by
  have hte : e.isEmpty = false := by
    rw [Bool.eq_false_iff]
    simpa [String.isEmpty_iff] using he
  have htt : t.isEmpty = false := by
    rw [Bool.eq_false_iff]
    simpa [String.isEmpty_iff] using ht
  have htr : (jsTruthy (some e) && jsTruthy (some t)) = true := by
    simp [jsTruthy, hte, htt]
  have h1 : verifyEmail db now (some e) (some t)
      = (200, "Email already verified", db) := by
    simp [verifyEmail, htr, hfind, hver]
  exact ⟨h1, by rw [h1]; exact h1⟩

/-- Witness for C4: checking the verified sample user with a wrong token
still answers 200 and leaves the table unchanged. -/
theorem c4_verify_already_verified_witness :
    verifyEmail [exVerifiedUser] 0 (some "bob@example.com")
      (some "wrong-token")
      = (200, "Email already verified", [exVerifiedUser]) :=
  (c4_verify_already_verified [exVerifiedUser] 0 "bob@example.com"
    "wrong-token" exVerifiedUser (by decide) (by decide) (by decide)
    (by decide)).1

/-- C1: for GET, PUT, PATCH and DELETE on /v1/product/:productId the
existence check precedes the ownership check: a missing product answers
404 for every actor with the table unchanged; an existing product owned
by a different actor answers 403 with the table unchanged; the owner's
request proceeds past the guard (never 404 or 403), GET answering 200
with the product and DELETE 204 removing it. -/
theorem c1_product_access_guard
    (vput : ProductPutBody → List String)
    (vpatch : ProductPatchBody → List String)
    (db : List ProductRec) (actorId pid : String)
    (bput : ProductPutBody) (bpatch : ProductPatchBody) :
    (productByPk db pid = none →
      getProduct db actorId pid = (404, none)
      ∧ putProduct vput db actorId pid bput = (404, db)
      ∧ patchProduct vpatch db actorId pid bpatch = (404, db)
      ∧ deleteProduct db actorId pid = (404, db))
    ∧ (∀ p, productByPk db pid = some p → p.owner_user_id ≠ actorId →
      getProduct db actorId pid = (403, none)
      ∧ putProduct vput db actorId pid bput = (403, db)
      ∧ patchProduct vpatch db actorId pid bpatch = (403, db)
      ∧ deleteProduct db actorId pid = (403, db))
    ∧ (∀ p, productByPk db pid = some p → p.owner_user_id = actorId →
      getProduct db actorId pid = (200, some p)
      ∧ (putProduct vput db actorId pid bput).1 ≠ 404
      ∧ (putProduct vput db actorId pid bput).1 ≠ 403
      ∧ (patchProduct vpatch db actorId pid bpatch).1 ≠ 404
      ∧ (patchProduct vpatch db actorId pid bpatch).1 ≠ 403
      ∧ deleteProduct db actorId pid = (204, removeProduct db pid)) := by
  refine ⟨fun hnone => ?_, fun p hp hown => ?_, fun p hp hown => ?_⟩
  · exact ⟨by simp [getProduct, hnone], by simp [putProduct, hnone],
      by simp [patchProduct, hnone], by simp [deleteProduct, hnone]⟩
  · exact ⟨by simp [getProduct, hp, hown], by simp [putProduct, hp, hown],
      by simp [patchProduct, hp, hown], by simp [deleteProduct, hp, hown]⟩
  · refine ⟨by simp [getProduct, hp, hown], ?_, ?_, ?_, ?_,
      by simp [deleteProduct, hp, hown]⟩
    · unfold putProduct
      rw [hp]
      simp only [hown, bne_self_eq_false, Bool.false_eq_true, if_false]
      split <;> simp
    · unfold putProduct
      rw [hp]
      simp only [hown, bne_self_eq_false, Bool.false_eq_true, if_false]
      split <;> simp
    · unfold patchProduct
      rw [hp]
      simp only [hown, bne_self_eq_false, Bool.false_eq_true, if_false]
      split <;> (try split) <;> simp
    · unfold patchProduct
      rw [hp]
      simp only [hown, bne_self_eq_false, Bool.false_eq_true, if_false]
      split <;> (try split) <;> simp

/-- Witness for C1: the sample product is owned by `user-1`, so a DELETE
by `user-2` answers 403 and leaves the table unchanged. -/
theorem c1_product_access_guard_witness :
    deleteProduct [exProduct] "user-2" "prod-1" = (403, [exProduct]) :=
  ((c1_product_access_guard noErrs noErrs [exProduct] "user-2" "prod-1"
    { name := "n", description := "d", sku := "s", manufacturer := "m",
      quantity := 1 }
    { name := none, description := none, sku := none, manufacturer := none,
      quantity := none }).2.1 exProduct (by decide) (by decide)).2.2.2

/-- C2 counterexample: with an empty products table — so no product with
id `prod-1` exists — the image-list operation answers 403 Forbidden, not
the 404 NotFound the claim requires for a missing product. -/
theorem c2_missing_product_403_not_404 :
    (getImages ([] : List ProductRec) ([] : List ImageRec)
        "user-1" "prod-1").1 = 403
    ∧ (getImages ([] : List ProductRec) ([] : List ImageRec)
        "user-1" "prod-1").1 ≠ 404 := by
  decide

/-- C2 (amended): the image-attachment operations are owner-gated by a
single combined existence-and-ownership lookup: a productId for which no
product exists and an existing product owned by a different actor both
answer 403 Forbidden with no change; NotFound (404) is answered only for
a missing image under a product the actor owns. -/
theorem c2_image_owner_gate
    (s3up : Except String (String × String))
    (s3del : String → Except String Unit) (genId : String) (now : Int)
    (pdb : List ProductRec) (idb : List ImageRec)
    (actorId pid iid : String) :
    (productByPk pdb pid = none → findOwnedProduct pdb pid actorId = none)
    ∧ ((∀ q ∈ pdb, q.id = pid → q.owner_user_id ≠ actorId) →
        findOwnedProduct pdb pid actorId = none)
    ∧ (findOwnedProduct pdb pid actorId = none →
        postImage s3up genId now pdb idb actorId pid true = (403, idb)
        ∧ getImages pdb idb actorId pid = (403, none)
        ∧ getImage pdb idb actorId pid iid = (403, none)
        ∧ deleteImage s3del pdb idb actorId pid iid = (403, idb))
    ∧ (∀ p, findOwnedProduct pdb pid actorId = some p →
        (getImages pdb idb actorId pid).1 = 200
        ∧ (postImage s3up genId now pdb idb actorId pid true).1 ≠ 403
        ∧ (postImage s3up genId now pdb idb actorId pid true).1 ≠ 404
        ∧ (findImage idb iid pid = none →
            getImage pdb idb actorId pid iid = (404, none)
            ∧ deleteImage s3del pdb idb actorId pid iid = (404, idb))) := by
  refine ⟨fun hnone => ?_, fun hown => ?_, fun hg => ?_, fun p hp => ?_⟩
  · unfold findOwnedProduct
    unfold productByPk at hnone
    rw [List.find?_eq_none] at hnone ⊢
    intro q hq
    simp only [Bool.and_eq_true, beq_iff_eq, not_and]
    intro hid
    exact absurd (by simp [hid]) (hnone q hq)
  · unfold findOwnedProduct
    rw [List.find?_eq_none]
    intro q hq
    simp only [Bool.and_eq_true, beq_iff_eq, not_and]
    exact hown q hq
  · exact ⟨by simp [postImage, hg], by simp [getImages, hg],
      by simp [getImage, hg], by simp [deleteImage, hg]⟩
  · refine ⟨by simp [getImages, hp], ?_, ?_, fun hi => ?_⟩
    · rcases s3up with e | ⟨fn, path⟩ <;> simp [postImage, hp]
    · rcases s3up with e | ⟨fn, path⟩ <;> simp [postImage, hp]
    · exact ⟨by simp [getImage, hp, hi], by simp [deleteImage, hp, hi]⟩

/-- Witness for C2 (amended): `user-2` does not own the sample product,
so deleting one of its images answers 403 with the images table
unchanged. -/
theorem c2_image_owner_gate_witness :
    deleteImage (fun _ => Except.ok ()) [exProduct] [exImage]
      "user-2" "prod-1" "img-1" = (403, [exImage]) :=
  ((c2_image_owner_gate (Except.ok ("a.png", "p")) (fun _ => Except.ok ())
    "img-9" 0 [exProduct] [exImage] "user-2" "prod-1"
    "img-1").2.2.1 (by decide)).2.2.2

/-- C7: deleting an attachment runs the storage delete first and removes
the metadata row only after it succeeds: a storage-delete failure is
caught and answered 500 with the images table unchanged, a success is
answered 204 with the row removed, and the table changes only when the
storage delete confirmed ok. -/
theorem c7_image_delete_order (s3del : String → Except String Unit)
    (pdb : List ProductRec) (idb : List ImageRec)
    (actorId pid iid : String) (p : ProductRec) (img : ImageRec)
    (hp : findOwnedProduct pdb pid actorId = some p)
    (hi : findImage idb iid pid = some img) :
    (∀ e, s3del img.s3_bucket_path = Except.error e →
        deleteImage s3del pdb idb actorId pid iid = (500, idb))
    ∧ (s3del img.s3_bucket_path = Except.ok () →
        deleteImage s3del pdb idb actorId pid iid
          = (204, removeImage idb iid pid))
    ∧ ((deleteImage s3del pdb idb actorId pid iid).2 ≠ idb →
        s3del img.s3_bucket_path = Except.ok ()) := by
  refine ⟨fun e herr => ?_, fun hok => ?_, fun hch => ?_⟩
  · simp [deleteImage, hp, hi, herr]
  · simp [deleteImage, hp, hi, hok]
  · rcases hdel : s3del img.s3_bucket_path with e | u
    · exact absurd (by simp [deleteImage, hp, hi, hdel]) hch
    · cases u
      rfl

/-- Witness for C7: with a failing storage client, deleting the sample
image answers 500 and the metadata row survives. -/
theorem c7_image_delete_order_witness :
    deleteImage (fun _ => Except.error "s3 down") [exProduct] [exImage]
      "user-1" "prod-1" "img-1" = (500, [exImage]) :=
  (c7_image_delete_order (fun _ => Except.error "s3 down") [exProduct]
    [exImage] "user-1" "prod-1" "img-1" exProduct exImage (by decide)
    (by decide)).1 "s3 down" rfl

/-- C8: for a valid, non-duplicate registration the outcome of the
notification publish is irrelevant: the row is created and 201 is
answered with the serialized identity whatever the publisher does, and
any two publishers yield identical results. -/
theorem c8_sns_failure_still_creates
    (validate : UserCreateBody → List String) (hashFn : String → String)
    (genId genTok : String) (now : Int)
    (p1 p2 : SnsMsg → Except String Unit)
    (db : List UserRec) (body : UserCreateBody)
    (hv : validate body = [])
    (hdup : findByUsername db body.username = none) :
    postUser validate hashFn genId genTok now p1 db body
      = (201, some (userToJSON (newUserRec hashFn genId genTok now body)),
          db ++ [newUserRec hashFn genId genTok now body])
    ∧ postUser validate hashFn genId genTok now p1 db body
      = postUser validate hashFn genId genTok now p2 db body := by
  have h : ∀ p : SnsMsg → Except String Unit,
      postUser validate hashFn genId genTok now p db body
        = (201, some (userToJSON (newUserRec hashFn genId genTok now body)),
            db ++ [newUserRec hashFn genId genTok now body]) := by
    intro p
    unfold postUser
    rw [hv]
    simp only [List.isEmpty_nil, Bool.not_true, Bool.false_eq_true,
      if_false, hdup]
    split <;> rfl
  exact ⟨h p1, (h p1).trans (h p2).symm⟩

/-- Witness for C8: with a publisher that always fails, registering the
sample body on an empty table still creates the row and answers 201. -/
theorem c8_sns_failure_still_creates_witness :
    postUser noErrs (fun s => s) "user-9" "tok-9" 0
      (fun _ => Except.error "sns down") [] exCreateBody
      = (201, some (userToJSON (newUserRec (fun s => s) "user-9" "tok-9" 0
          exCreateBody)),
          [newUserRec (fun s => s) "user-9" "tok-9" 0 exCreateBody]) :=
  (c8_sns_failure_still_creates noErrs (fun s => s) "user-9" "tok-9" 0
    (fun _ => Except.error "sns down") (fun _ => Except.ok ()) []
    exCreateBody rfl rfl).1

/-- Keys of the serialized identity: `toJSON` keeps exactly the seven
non-sensitive columns. -/
theorem userToJSON_keys (u : UserRec) :
    (userToJSON u).map Prod.fst
      = ["id", "first_name", "last_name", "username", "account_created",
         "account_updated", "email_verified"] := rfl

/-- C6: every identity representation sent to a caller — the registration
response, GET /v1/user/self and GET /v1/user/:userId — never contains
the password hash, the verification_token or the
verification_token_expiry keys. -/
theorem c6_serialized_identity_omits_secrets
    (validate : UserCreateBody → List String) (hashFn : String → String)
    (genId genTok : String) (now : Int)
    (snsPub : SnsMsg → Except String Unit)
    (db : List UserRec) (body : UserCreateBody) (actor : UserRec)
    (uid : String) :
    (∀ u : UserRec,
      "password" ∉ (userToJSON u).map Prod.fst
      ∧ "verification_token" ∉ (userToJSON u).map Prod.fst
      ∧ "verification_token_expiry" ∉ (userToJSON u).map Prod.fst)
    ∧ (∀ b, (postUser validate hashFn genId genTok now snsPub db body).2.1
          = some b →
        "password" ∉ b.map Prod.fst
        ∧ "verification_token" ∉ b.map Prod.fst
        ∧ "verification_token_expiry" ∉ b.map Prod.fst)
    ∧ ("password" ∉ (getUserSelf actor).2.map Prod.fst
       ∧ "verification_token" ∉ (getUserSelf actor).2.map Prod.fst
       ∧ "verification_token_expiry" ∉ (getUserSelf actor).2.map Prod.fst)
    ∧ (∀ b, (getUserById db actor uid).2.2 = some b →
        "password" ∉ b.map Prod.fst
        ∧ "verification_token" ∉ b.map Prod.fst
        ∧ "verification_token_expiry" ∉ b.map Prod.fst) := by
  have hk : ∀ u : UserRec,
      "password" ∉ (userToJSON u).map Prod.fst
      ∧ "verification_token" ∉ (userToJSON u).map Prod.fst
      ∧ "verification_token_expiry" ∉ (userToJSON u).map Prod.fst := by
    intro u
    rw [userToJSON_keys]
    refine ⟨?_, ?_, ?_⟩ <;> decide
  refine ⟨hk, fun b hb => ?_, ?_, fun b hb => ?_⟩
  · unfold postUser at hb
    split at hb
    · simp only [Option.some.injEq] at hb
      subst hb
      refine ⟨?_, ?_, ?_⟩ <;> simp
    · split at hb
      · simp only [Option.some.injEq] at hb
        subst hb
        refine ⟨?_, ?_, ?_⟩ <;> simp
      · split at hb <;>
          (simp only [Option.some.injEq] at hb; subst hb; exact hk _)
  · simpa [getUserSelf] using hk actor
  · unfold getUserById at hb
    split at hb
    · simp at hb
    · split at hb
      · simp at hb
      · split at hb
        · simp at hb
        · simp only [Option.some.injEq] at hb
          subst hb
          exact hk actor

/-- Witness for C6: the registration response body for the sample
registration carries none of the three sensitive keys. -/
theorem c6_serialized_identity_omits_secrets_witness :
    "password" ∉ (userToJSON exUser).map Prod.fst
    ∧ "verification_token" ∉ (userToJSON exUser).map Prod.fst
    ∧ "verification_token_expiry" ∉ (userToJSON exUser).map Prod.fst :=
  (c6_serialized_identity_omits_secrets noErrs (fun s => s) "user-9"
    "tok-9" 0 (fun _ => Except.ok ()) [] exCreateBody exUser
    "user-1").1 exUser

/-- The row inserted at registration satisfies the verification-field
invariant: unverified with token and expiry both set. -/
theorem userInv_newUserRec (hashFn : String → String)
    (genId genTok : String) (now : Int) (body : UserCreateBody) :
    userInv (newUserRec hashFn genId genTok now body) := by
  simp [userInv, newUserRec]

/-- C5: every operation that touches an identity preserves the
invariants that a verified row holds no token and that the token and
expiry columns are null together: registration creates the row
unverified with both fields set, the verify handler preserves the
invariant on every row (a success clears both fields together while
setting verified), and the profile-update handler writes none of these
fields. -/
theorem c5_verification_field_invariants
    (validateC : UserCreateBody → List String)
    (validateU : UserUpdateBody → List String)
    (hashFn : String → String) (genId genTok : String)
    (now nowV nowU : Int) (snsPub : SnsMsg → Except String Unit)
    (db : List UserRec) (cbody : UserCreateBody) (ubody : UserUpdateBody)
    (email token : Option String) (actorId uid : String)
    (hInv : ∀ u ∈ db, userInv u) :
    (userInv (newUserRec hashFn genId genTok now cbody)
      ∧ (newUserRec hashFn genId genTok now cbody).email_verified = false
      ∧ (newUserRec hashFn genId genTok now cbody).verification_token
          = some genTok
      ∧ (newUserRec hashFn genId genTok now cbody).verification_token_expiry
          = some (now + 60 * 1000))
    ∧ (∀ u ∈ (postUser validateC hashFn genId genTok now snsPub
          db cbody).2.2, userInv u)
    ∧ (∀ u ∈ (verifyEmail db nowV email token).2.2, userInv u)
    ∧ (∀ u ∈ (putUser validateU hashFn nowU db actorId uid
          ubody).2.1, userInv u) := by
  refine ⟨⟨userInv_newUserRec hashFn genId genTok now cbody,
    by simp [newUserRec], by simp [newUserRec], by simp [newUserRec]⟩,
    fun u hu => ?_, fun u hu => ?_, fun u hu => ?_⟩
  · unfold postUser at hu
    split at hu
    · exact hInv u hu
    · split at hu
      · exact hInv u hu
      · split at hu <;>
          (rcases List.mem_append.mp hu with h | h
           · exact hInv u h
           · rw [List.mem_singleton.mp h]
             exact userInv_newUserRec hashFn genId genTok now cbody)
  · unfold verifyEmail at hu
    split at hu
    · exact hInv u hu
    · split at hu
      · exact hInv u hu
      · split at hu
        · exact hInv u hu
        · split at hu
          · exact hInv u hu
          · split at hu
            · exact hInv u hu
            · rcases List.mem_map.mp hu with ⟨w, hw, rfl⟩
              unfold markVerified
              split
              · simp [userInv]
              · exact hInv w hw
  · unfold putUser at hu
    split at hu
    · exact hInv u hu
    · split at hu
      · exact hInv u hu
      · split at hu
        · exact hInv u hu
        · split at hu
          · exact hInv u hu
          · split at hu
            · exact hInv u hu
            · rcases List.mem_map.mp hu with ⟨w, hw, rfl⟩
              unfold applyUserUpdate
              split
              · have hw' := hInv w hw
                simpa [userInv] using hw'
              · exact hInv w hw

/-- Witness for C5: the row created for the sample registration is
unverified with both verification fields set and satisfies the
invariant. -/
theorem c5_verification_field_invariants_witness :
    userInv (newUserRec (fun s => s) "user-9" "tok-9" 0 exCreateBody)
    ∧ (newUserRec (fun s => s) "user-9" "tok-9" 0
        exCreateBody).email_verified = false
    ∧ (newUserRec (fun s => s) "user-9" "tok-9" 0
        exCreateBody).verification_token = some "tok-9"
    ∧ (newUserRec (fun s => s) "user-9" "tok-9" 0
        exCreateBody).verification_token_expiry = some (0 + 60 * 1000) :=
  (c5_verification_field_invariants noErrs noErrs (fun s => s) "user-9"
    "tok-9" 0 0 0 (fun _ => Except.ok ()) [exUser] exCreateBody
    { first_name := none, last_name := none, password := none }
    (some "ada@example.com") (some "tok-1") "user-1" "user-1"
    (by decide)).1

/-- C9 counterexample: a POST to /healthz carrying a payload is answered
405 by the method guard, not the 400 the claim assigns to any request
carrying a payload. -/
theorem c9_payload_post_is_405_not_400 :
    (healthzRoute HttpMethod.post true true).status = 405
    ∧ (healthzRoute HttpMethod.post true true).status ≠ 400 := by
  decide

/-- C9 (amended): GET /healthz with an empty body answers 200 with an
empty body and no-cache headers when the persistence write succeeds and
503 when it fails; a GET carrying a payload answers 400; any non-GET
method answers 405 regardless of payload, the method guard taking
precedence. -/
theorem c9_healthz_contract (dbOk payload : Bool) (m : HttpMethod) :
    healthzRoute HttpMethod.get false true
      = { status := 200, noCacheHeaders := true, bodyEmpty := true }
    ∧ healthzRoute HttpMethod.get false false
      = { status := 503, noCacheHeaders := true, bodyEmpty := true }
    ∧ healthzRoute HttpMethod.get true dbOk
      = { status := 400, noCacheHeaders := true, bodyEmpty := true }
    ∧ (m ≠ HttpMethod.get →
        healthzRoute m payload dbOk
          = { status := 405, noCacheHeaders := true, bodyEmpty := true }) := by
  refine ⟨rfl, rfl, by cases dbOk <;> rfl, fun hm => ?_⟩
  cases m <;> first | rfl | exact absurd rfl hm

/-- Witness for C9 (amended): a PUT with no payload and a healthy
database is still answered 405. -/
theorem c9_healthz_contract_witness :
    healthzRoute HttpMethod.put false true
      = { status := 405, noCacheHeaders := true, bodyEmpty := true } :=
  (c9_healthz_contract true false HttpMethod.put).2.2.2 (by decide)

/-- C10: a GET or PUT on /v1/user/:userId whose userId is not a
well-formed 8-4-4-4-12 hexadecimal UUID answers 400 with zero database
calls performed and the users table unchanged. -/
theorem c10_malformed_uuid_gate (validate : UserUpdateBody → List String)
    (hashFn : String → String) (now : Int) (db : List UserRec)
    (actor : UserRec) (actorId uid : String) (body : UserUpdateBody)
    (h : isValidUUID uid = false) :
    getUserById db actor uid = (400, 0, none)
    ∧ putUser validate hashFn now db actorId uid body = (400, db, 0) :=
  ⟨by simp [getUserById, h], by simp [putUser, h]⟩

/-- Witness for C10: the string `not-a-uuid` is rejected with 400 and no
database access on both handlers. -/
theorem c10_malformed_uuid_gate_witness :
    getUserById [exUser] exUser "not-a-uuid" = (400, 0, none)
    ∧ putUser noErrs (fun s => s) 0 [exUser] "user-1" "not-a-uuid"
        { first_name := some "A", last_name := some "B",
          password := some "pw" } = (400, [exUser], 0) :=
  c10_malformed_uuid_gate noErrs (fun s => s) 0 [exUser] exUser "user-1"
    "not-a-uuid"
    { first_name := some "A", last_name := some "B", password := some "pw" }
    (by decide)

end Webapp
